import Mathlib

/-!
Shallow embedding of `include/boost/math/distributions/pareto.hpp`
(the Pareto distribution of boost.math).

The C++ code is generic over a floating-point `RealType`; we model
`RealType` as the real numbers `ℝ`, and `pow` (applied with real
exponents throughout the source) as `Real.rpow`.  `ℝ` has no NaN or
infinity, so the `isfinite` branches of the parameter checks are
vacuously true and are omitted; every claim under study quantifies
over finite values only.

Under the default error-handling policy, `policies::raise_domain_error`
throws a `std::domain_error` carrying the formatted message; an entry
point therefore either returns a real value, returns the
`tools::max_value<RealType>()` sentinel (the largest representable
value, which the source uses as a stand-in for +infinity), or signals
a domain error.  `MathResult` captures these three outcomes; a domain
error carries the source's message format string.
-/

namespace BoostMath

/-- Outcome of a boost.math entry point: an ordinary real value, the
`tools::max_value` sentinel, or a domain error carrying the message
format string passed to `policies::raise_domain_error`. -/
inductive MathResult where
  | ok (v : ℝ)
  | maxVal
  | domainError (msg : String)

/-- `detail::check_pareto_location`: the location parameter must be
finite (vacuous over `ℝ`) and strictly positive.  Returns `none` when
the check passes, `some msg` with the raised message otherwise. -/
noncomputable def check_pareto_location (location : ℝ) : Option String :=
  if 0 < location then none
  else some "Location parameter is %1%, but must be > 0!"

/-- `detail::check_pareto_shape`: the shape parameter must be finite
(vacuous over `ℝ`) and strictly positive. -/
noncomputable def check_pareto_shape (shape : ℝ) : Option String :=
  if 0 < shape then none
  else some "Shape parameter is %1%, but must be > 0!"

/-- `detail::check_pareto_x`: the random-variable argument must be
finite (vacuous over `ℝ`) and strictly positive. -/
noncomputable def check_pareto_x (x : ℝ) : Option String :=
  if 0 < x then none
  else some "x parameter is %1%, but must be > 0 !"

/-- `detail::check_pareto`: location check, then (short-circuit `&&`)
shape check. -/
noncomputable def check_pareto (location shape : ℝ) : Option String :=
  match check_pareto_location location with
  | some m => some m
  | none => check_pareto_shape shape

/-- Modelled from the spec: `detail::check_probability` lives in
`boost/math/distributions/detail/common_error_handling.hpp`, which is
not part of this repository snapshot.  Per the spec (section 4.1), a
probability argument must be finite (vacuous over `ℝ`) and within
`[0, 1]`; otherwise a domain error describing the violated bound is
raised. -/
noncomputable def check_probability (p : ℝ) : Option String :=
  if 0 ≤ p ∧ p ≤ 1 then none
  else some "Probability argument is %1%, but must be >= 0 and <= 1 !"

/-- Modelled from the spec: `powm1` lives in
`boost/math/special_functions/powm1.hpp`, which is not part of this
repository snapshot.  Per the spec (glossary), `powm1(a, b)` is a
numerically stable evaluation of `a^b - 1`. -/
noncomputable def powm1 (a b : ℝ) : ℝ := a ^ b - 1

/-- `boost::math::pareto_distribution<RealType, Policy>`: an immutable
pair of parameters.  (The constructor also runs `detail::check_pareto`
for its error side effect; the stored fields are the arguments either
way.) -/
structure pareto_distribution where
  m_location : ℝ
  m_shape : ℝ

/-- Accessor `pareto_distribution::location()`. -/
def pareto_distribution.location (d : pareto_distribution) : ℝ := d.m_location

/-- Accessor `pareto_distribution::shape()`. -/
def pareto_distribution.shape (d : pareto_distribution) : ℝ := d.m_shape

/-- `support(dist)`: the pair `(dist.location(), max_value<RealType>())`.
The second component is the `max_value` sentinel, expressed through
`MathResult` so the sentinel stays distinguishable from a real value. -/
def support (dist : pareto_distribution) : MathResult × MathResult :=
  (.ok dist.location, .maxVal)

/-- `range(dist)`: the pair `(0, max_value<RealType>())`. -/
def range (_dist : pareto_distribution) : MathResult × MathResult :=
  (.ok 0, .maxVal)

/-- `pdf(dist, x)`: checks `x` first, then the distribution parameters;
below `location` (strictly) the density is zero, otherwise
`shape * location^shape / x^(shape+1)`. -/
noncomputable def pdf (dist : pareto_distribution) (x : ℝ) : MathResult :=
  match check_pareto_x x with
  | some m => .domainError m
  | none =>
  match check_pareto dist.location dist.shape with
  | some m => .domainError m
  | none =>
  if x < dist.location then .ok 0
  else .ok (dist.shape * dist.location ^ dist.shape / x ^ (dist.shape + 1))

/-- `cdf(dist, x)`: checks `x` first, then the distribution parameters;
at or below `location` the cdf is zero, otherwise
`-powm1(location/x, shape)`. -/
noncomputable def cdf (dist : pareto_distribution) (x : ℝ) : MathResult :=
  match check_pareto_x x with
  | some m => .domainError m
  | none =>
  match check_pareto dist.location dist.shape with
  | some m => .domainError m
  | none =>
  if x ≤ dist.location then .ok 0
  else .ok (-powm1 (dist.location / x) dist.shape)

/-- `quantile(dist, p)`: checks the probability first, then the
distribution parameters; `p = 0` yields `location`, `p = 1` yields the
`max_value` sentinel, otherwise `location / (1-p)^(1/shape)`. -/
noncomputable def quantile (dist : pareto_distribution) (p : ℝ) : MathResult :=
  match check_probability p with
  | some m => .domainError m
  | none =>
  match check_pareto dist.location dist.shape with
  | some m => .domainError m
  | none =>
  if p = 0 then .ok dist.location
  else if p = 1 then .maxVal
  else .ok (dist.location / (1 - p) ^ (1 / dist.shape))

/-- The `cdf(complemented2_type)` overload, i.e. `cdf(complement(dist, x))`:
checks `x` first, then the distribution parameters; at or below
`location` the complement is one, otherwise `(location/x)^shape`. -/
noncomputable def cdf_complement (dist : pareto_distribution) (x : ℝ) : MathResult :=
  match check_pareto_x x with
  | some m => .domainError m
  | none =>
  match check_pareto dist.location dist.shape with
  | some m => .domainError m
  | none =>
  if x ≤ dist.location then .ok 1
  else .ok ((dist.location / x) ^ dist.shape)

/-- The `quantile(complemented2_type)` overload, i.e.
`quantile(complement(dist, q))`: checks the probability first, then the
distribution parameters; `q = 1` yields `location`, `q = 0` yields the
`max_value` sentinel, otherwise `location / q^(1/shape)`. -/
noncomputable def quantile_complement (dist : pareto_distribution) (q : ℝ) : MathResult :=
  match check_probability q with
  | some m => .domainError m
  | none =>
  match check_pareto dist.location dist.shape with
  | some m => .domainError m
  | none =>
  if q = 1 then .ok dist.location
  else if q = 0 then .maxVal
  else .ok (dist.location / q ^ (1 / dist.shape))

/-- `mean(dist)`: validates the parameters; for `shape > 1` the mean is
`shape * location / (shape - 1)`, otherwise the `max_value` sentinel is
returned silently (standing in for +infinity, not an error). -/
noncomputable def mean (dist : pareto_distribution) : MathResult :=
  match check_pareto dist.location dist.shape with
  | some m => .domainError m
  | none =>
  if 1 < dist.shape then .ok (dist.shape * dist.location / (dist.shape - 1))
  else .maxVal

/-- `mode(dist)`: returns `dist.location()` unconditionally.  Note the
source performs no parameter validation here. -/
def mode (dist : pareto_distribution) : MathResult :=
  .ok dist.location

/-- `median(dist)`: validates the parameters, then returns
`location * 2^(1/shape)`. -/
noncomputable def median (dist : pareto_distribution) : MathResult :=
  match check_pareto dist.location dist.shape with
  | some m => .domainError m
  | none =>
  .ok (dist.location * (2 : ℝ) ^ (1 / dist.shape))

/-- `variance(dist)`: validates the parameters; for `shape > 2` the
variance is `location² * shape / ((shape-1)² * (shape-2))`, otherwise a
domain error is raised. -/
noncomputable def variance (dist : pareto_distribution) : MathResult :=
  match check_pareto dist.location dist.shape with
  | some m => .domainError m
  | none =>
  if 2 < dist.shape then
    .ok (dist.location * dist.location * dist.shape /
      ((dist.shape - 1) * (dist.shape - 1) * (dist.shape - 2)))
  else .domainError "variance is undefined for shape <= 2, but got %1%."

/-- `skewness(dist)`: validates the parameters; for `shape > 3` the
skewness is `sqrt((shape-2)/shape) * 2 * (shape+1) / (shape-3)`,
otherwise a domain error is raised. -/
noncomputable def skewness (dist : pareto_distribution) : MathResult :=
  match check_pareto dist.location dist.shape with
  | some m => .domainError m
  | none =>
  if 3 < dist.shape then
    .ok (Real.sqrt ((dist.shape - 2) / dist.shape) * 2 * (dist.shape + 1) /
      (dist.shape - 3))
  else .domainError "skewness is undefined for shape <= 3, but got %1%."

/-- `kurtosis(dist)`: validates the parameters; for `shape > 4` the
kurtosis is `3 * (shape-2) * (3*shape² + shape + 2) /
(shape * (shape-3) * (shape-4))`, otherwise a domain error is raised —
whose message in the source reads `kurtosis_excess is undefined ...`
(transcribed verbatim). -/
noncomputable def kurtosis (dist : pareto_distribution) : MathResult :=
  match check_pareto dist.location dist.shape with
  | some m => .domainError m
  | none =>
  if 4 < dist.shape then
    .ok (3 * ((dist.shape - 2) * (3 * dist.shape * dist.shape + dist.shape + 2)) /
      (dist.shape * (dist.shape - 3) * (dist.shape - 4)))
  else .domainError "kurtosis_excess is undefined for shape <= 4, but got %1%."

/-- `kurtosis_excess(dist)`: validates the parameters; for `shape > 4`
the excess kurtosis is `6 * (shape³ + shape² - 6*shape - 2) /
(shape * (shape-3) * (shape-4))`, otherwise a domain error is raised. -/
noncomputable def kurtosis_excess (dist : pareto_distribution) : MathResult :=
  match check_pareto dist.location dist.shape with
  | some m => .domainError m
  | none =>
  if 4 < dist.shape then
    .ok (6 * (dist.shape * dist.shape * dist.shape + dist.shape * dist.shape -
      6 * dist.shape - 2) /
      (dist.shape * (dist.shape - 3) * (dist.shape - 4)))
  else .domainError "kurtosis_excess is undefined for shape <= 4, but got %1%."

/- ------------------------------------------------------------------ -/
/- Helper lemmas about the validation helpers.                        -/
/- ------------------------------------------------------------------ -/

lemma check_pareto_x_pos {x : ℝ} (hx : 0 < x) : check_pareto_x x = none := by
  simp [check_pareto_x, hx]

lemma check_pareto_ok {l s : ℝ} (hl : 0 < l) (hs : 0 < s) :
    check_pareto l s = none := by
  simp [check_pareto, check_pareto_location, check_pareto_shape, hl, hs]

lemma check_probability_ok {p : ℝ} (h0 : 0 ≤ p) (h1 : p ≤ 1) :
    check_probability p = none := by
  simp [check_probability, h0, h1]

lemma check_pareto_x_fail {x : ℝ} (hx : x ≤ 0) :
    check_pareto_x x = some "x parameter is %1%, but must be > 0 !" := by
  simp [check_pareto_x, not_lt.mpr hx]

lemma check_probability_fail {p : ℝ} (hp : p < 0 ∨ 1 < p) :
    check_probability p =
      some "Probability argument is %1%, but must be >= 0 and <= 1 !" := by
  rcases hp with hp | hp <;>
    simp [check_probability, not_and_or, not_le.mpr hp]

lemma check_pareto_fail {l s : ℝ} (h : l ≤ 0 ∨ s ≤ 0) :
    ∃ m, check_pareto l s = some m := by
  rcases h with h | h
  · exact ⟨"Location parameter is %1%, but must be > 0!",
      by simp [check_pareto, check_pareto_location, not_lt.mpr h]⟩
  · by_cases hl : 0 < l
    · exact ⟨"Shape parameter is %1%, but must be > 0!",
        by simp [check_pareto, check_pareto_location, check_pareto_shape,
          hl, not_lt.mpr h]⟩
    · exact ⟨"Location parameter is %1%, but must be > 0!",
        by simp [check_pareto, check_pareto_location, hl]⟩

lemma quantile_mid {location shape p : ℝ} (hl : 0 < location) (hs : 0 < shape)
    (hp0 : 0 < p) (hp1 : p < 1) :
    quantile ⟨location, shape⟩ p =
      .ok (location / (1 - p) ^ (1 / shape)) := by
  simp [quantile, check_probability_ok hp0.le hp1.le, check_pareto_ok hl hs,
    pareto_distribution.location, pareto_distribution.shape, hp0.ne', hp1.ne]

lemma cdf_above {location shape x : ℝ} (hl : 0 < location) (hs : 0 < shape)
    (hx : 0 < x) (hlx : location < x) :
    cdf ⟨location, shape⟩ x = .ok (1 - (location / x) ^ shape) := by
  simp only [cdf, check_pareto_x_pos hx, check_pareto_ok hl hs,
    pareto_distribution.location, pareto_distribution.shape, powm1,
    if_neg (not_le.mpr hlx)]
  norm_num

/- ------------------------------------------------------------------ -/
/- Claims.                                                            -/
/- ------------------------------------------------------------------ -/

/-- Claim C1: for every distribution with valid (location, shape) and every
valid finite x > 0, `cdf` returns 0 when x ≤ location (boundary inclusive)
and 1 - (location/x)^shape when x > location. -/
theorem cdf_pareto_spec (location shape x : ℝ)
    (hl : 0 < location) (hs : 0 < shape) (hx : 0 < x) :
    (x ≤ location → cdf ⟨location, shape⟩ x = .ok 0) ∧
    (location < x →
      cdf ⟨location, shape⟩ x = .ok (1 - (location / x) ^ shape)) := by
  constructor
  · intro hxl
    simp [cdf, check_pareto_x_pos hx, check_pareto_ok hl hs,
      pareto_distribution.location, pareto_distribution.shape, hxl]
  · intro hlx
    simp only [cdf, check_pareto_x_pos hx, check_pareto_ok hl hs,
      pareto_distribution.location, pareto_distribution.shape, powm1,
      if_neg (not_le.mpr hlx)]
    norm_num

theorem cdf_pareto_spec_witness :
    cdf ⟨2, 3⟩ 4 = .ok (1 - ((2 : ℝ) / 4) ^ (3 : ℝ)) :=
  (cdf_pareto_spec 2 3 4 (by norm_num) (by norm_num) (by norm_num)).2
    (by norm_num)

/-- Claim C2: for every distribution with valid (location, shape) and every
valid finite x > 0, the complemented cdf returns 1 when x ≤ location and
(location/x)^shape when x > location. -/
theorem cdf_complement_pareto_spec (location shape x : ℝ)
    (hl : 0 < location) (hs : 0 < shape) (hx : 0 < x) :
    (x ≤ location → cdf_complement ⟨location, shape⟩ x = .ok 1) ∧
    (location < x →
      cdf_complement ⟨location, shape⟩ x = .ok ((location / x) ^ shape)) := by
  constructor
  · intro hxl
    simp [cdf_complement, check_pareto_x_pos hx, check_pareto_ok hl hs,
      pareto_distribution.location, pareto_distribution.shape, hxl]
  · intro hlx
    simp [cdf_complement, check_pareto_x_pos hx, check_pareto_ok hl hs,
      pareto_distribution.location, pareto_distribution.shape,
      if_neg (not_le.mpr hlx)]

theorem cdf_complement_pareto_spec_witness :
    cdf_complement ⟨2, 3⟩ 4 = .ok (((2 : ℝ) / 4) ^ (3 : ℝ)) :=
  (cdf_complement_pareto_spec 2 3 4 (by norm_num) (by norm_num)
    (by norm_num)).2 (by norm_num)

/-- Claim C3: for every distribution with valid (location, shape) and every
valid finite x > 0, `pdf` returns exactly 0 when x < location (strictly,
with no error) and shape * location^shape / x^(shape+1) otherwise. -/
theorem pdf_pareto_spec (location shape x : ℝ)
    (hl : 0 < location) (hs : 0 < shape) (hx : 0 < x) :
    (x < location → pdf ⟨location, shape⟩ x = .ok 0) ∧
    (location ≤ x →
      pdf ⟨location, shape⟩ x =
        .ok (shape * location ^ shape / x ^ (shape + 1))) := by
  constructor
  · intro hxl
    simp [pdf, check_pareto_x_pos hx, check_pareto_ok hl hs,
      pareto_distribution.location, pareto_distribution.shape, hxl]
  · intro hlx
    simp [pdf, check_pareto_x_pos hx, check_pareto_ok hl hs,
      pareto_distribution.location, pareto_distribution.shape,
      if_neg (not_lt.mpr hlx)]

theorem pdf_pareto_spec_witness :
    pdf ⟨2, 3⟩ 4 = .ok ((3 : ℝ) * (2 : ℝ) ^ (3 : ℝ) / (4 : ℝ) ^ ((3 : ℝ) + 1)) :=
  (pdf_pareto_spec 2 3 4 (by norm_num) (by norm_num) (by norm_num)).2
    (by norm_num)

/-- Claim C10: for every distribution with valid (location, shape), `pdf`
evaluated exactly at x = location takes the formula branch (the zero branch
uses strict x < location) and returns
shape * location^shape / location^(shape+1) = shape/location > 0, even
though `support` reports the interval (location, max_value). -/
theorem pdf_at_location_spec (location shape : ℝ)
    (hl : 0 < location) (hs : 0 < shape) :
    pdf ⟨location, shape⟩ location =
      .ok (shape * location ^ shape / location ^ (shape + 1)) ∧
    shape * location ^ shape / location ^ (shape + 1) = shape / location ∧
    0 < shape / location ∧
    support ⟨location, shape⟩ = (.ok location, .maxVal) := by
  refine ⟨?_, ?_, div_pos hs hl, rfl⟩
  · simp [pdf, check_pareto_x_pos hl, check_pareto_ok hl hs,
      pareto_distribution.location, pareto_distribution.shape]
  · have hls : location ^ shape ≠ 0 := (Real.rpow_pos_of_pos hl shape).ne'
    rw [Real.rpow_add hl, Real.rpow_one]
    field_simp
    ring

/-- Claim C4: for every distribution with valid (location, shape), `quantile`
returns exactly location at p = 0, the max_value sentinel at p = 1, and
location / (1-p)^(1/shape) for 0 < p < 1; the complemented quantile returns
exactly location at q = 1, the max_value sentinel at q = 0, and
location / q^(1/shape) for 0 < q < 1. -/
theorem quantile_pareto_spec (location shape p : ℝ)
    (hl : 0 < location) (hs : 0 < shape) :
    (p = 0 → quantile ⟨location, shape⟩ p = .ok location) ∧
    (p = 1 → quantile ⟨location, shape⟩ p = .maxVal) ∧
    (0 < p → p < 1 →
      quantile ⟨location, shape⟩ p =
        .ok (location / (1 - p) ^ (1 / shape))) ∧
    (p = 1 → quantile_complement ⟨location, shape⟩ p = .ok location) ∧
    (p = 0 → quantile_complement ⟨location, shape⟩ p = .maxVal) ∧
    (0 < p → p < 1 →
      quantile_complement ⟨location, shape⟩ p =
        .ok (location / p ^ (1 / shape))) := by
  refine ⟨?_, ?_, fun hp0 hp1 => quantile_mid hl hs hp0 hp1, ?_, ?_, ?_⟩
  · rintro rfl
    simp [quantile, check_probability_ok le_rfl zero_le_one,
      check_pareto_ok hl hs, pareto_distribution.location,
      pareto_distribution.shape]
  · rintro rfl
    simp [quantile, check_probability_ok zero_le_one le_rfl,
      check_pareto_ok hl hs, pareto_distribution.location,
      pareto_distribution.shape]
  · rintro rfl
    simp [quantile_complement, check_probability_ok zero_le_one le_rfl,
      check_pareto_ok hl hs, pareto_distribution.location,
      pareto_distribution.shape]
  · rintro rfl
    simp [quantile_complement, check_probability_ok le_rfl zero_le_one,
      check_pareto_ok hl hs, pareto_distribution.location,
      pareto_distribution.shape]
  · intro hp0 hp1
    simp [quantile_complement, check_probability_ok hp0.le hp1.le,
      check_pareto_ok hl hs, pareto_distribution.location,
      pareto_distribution.shape, hp0.ne', hp1.ne]

theorem quantile_pareto_spec_witness :
    quantile ⟨2, 3⟩ (1 / 2) =
      .ok ((2 : ℝ) / (1 - 1 / 2) ^ ((1 : ℝ) / 3)) ∧
    quantile_complement ⟨2, 3⟩ (1 / 2) =
      .ok ((2 : ℝ) / ((1 : ℝ) / 2) ^ ((1 : ℝ) / 3)) :=
  ⟨(quantile_pareto_spec 2 3 (1 / 2) (by norm_num) (by norm_num)).2.2.1
      (by norm_num) (by norm_num),
   (quantile_pareto_spec 2 3 (1 / 2) (by norm_num)
      (by norm_num)).2.2.2.2.2 (by norm_num) (by norm_num)⟩

/-- Claim C5: for every distribution with valid (location, shape) and every
0 < p < 1, the quantile at p is a value x with cdf(x) = p, and feeding that
cdf value back through quantile returns x again (round-trip of quantile
through cdf). -/
theorem quantile_cdf_roundtrip (location shape p : ℝ)
    (hl : 0 < location) (hs : 0 < shape) (hp0 : 0 < p) (hp1 : p < 1) :
    ∃ x : ℝ, quantile ⟨location, shape⟩ p = .ok x ∧
      cdf ⟨location, shape⟩ x = .ok p ∧
      ∀ y : ℝ, cdf ⟨location, shape⟩ x = .ok y →
        quantile ⟨location, shape⟩ y = .ok x := by
  have h1p : 0 < 1 - p := by linarith
  set r : ℝ := (1 - p) ^ (1 / shape) with hr_def
  have hr : 0 < r := Real.rpow_pos_of_pos h1p _
  have hrlt : r < 1 :=
    Real.rpow_lt_one h1p.le (by linarith) (by positivity)
  set x : ℝ := location / r with hx_def
  have hx : 0 < x := div_pos hl hr
  have hlx : location < x := by
    rw [hx_def, lt_div_iff₀ hr]
    calc location * r < location * 1 := by
          exact mul_lt_mul_of_pos_left hrlt hl
      _ = location := mul_one location
  have hratio : location / x = r := by
    rw [hx_def]
    field_simp
  have hpow : r ^ shape = 1 - p := by
    rw [hr_def, ← Real.rpow_mul h1p.le, one_div,
      inv_mul_cancel₀ hs.ne', Real.rpow_one]
  have hcdf : cdf ⟨location, shape⟩ x = .ok p := by
    rw [cdf_above hl hs hx hlx, hratio, hpow]
    norm_num
  refine ⟨x, quantile_mid hl hs hp0 hp1, hcdf, ?_⟩
  intro y hy
  rw [hcdf] at hy
  obtain rfl : p = y := by injection hy
  exact quantile_mid hl hs hp0 hp1

theorem quantile_cdf_roundtrip_witness :
    ∃ x : ℝ, quantile ⟨2, 3⟩ (1 / 2) = .ok x ∧
      cdf ⟨2, 3⟩ x = .ok (1 / 2) ∧
      ∀ y : ℝ, cdf ⟨2, 3⟩ x = .ok y → quantile ⟨2, 3⟩ y = .ok x :=
  quantile_cdf_roundtrip 2 3 (1 / 2) (by norm_num) (by norm_num)
    (by norm_num) (by norm_num)

/-- Claim C6: for every distribution with valid (location, shape), `mean`
returns shape*location/(shape-1) for shape > 1 and silently returns the
max_value sentinel (not a domain error) for shape ≤ 1, while `variance`
returns location²*shape/((shape-1)²*(shape-2)) for shape > 2 and raises a
domain error for shape ≤ 2: the asymmetry between the two undefined-region
policies is preserved. -/
theorem mean_variance_policy (location shape : ℝ)
    (hl : 0 < location) (hs : 0 < shape) :
    (1 < shape →
      mean ⟨location, shape⟩ = .ok (shape * location / (shape - 1))) ∧
    (shape ≤ 1 → mean ⟨location, shape⟩ = .maxVal) ∧
    (2 < shape → variance ⟨location, shape⟩ =
      .ok (location * location * shape /
        ((shape - 1) * (shape - 1) * (shape - 2)))) ∧
    (shape ≤ 2 → variance ⟨location, shape⟩ =
      .domainError "variance is undefined for shape <= 2, but got %1%.") := by
  refine ⟨?_, ?_, ?_, ?_⟩
  · intro h
    simp [mean, check_pareto_ok hl hs, pareto_distribution.location,
      pareto_distribution.shape, h]
  · intro h
    simp [mean, check_pareto_ok hl hs, pareto_distribution.location,
      pareto_distribution.shape, not_lt.mpr h]
  · intro h
    simp [variance, check_pareto_ok hl hs, pareto_distribution.location,
      pareto_distribution.shape, h]
  · intro h
    simp [variance, check_pareto_ok hl hs, pareto_distribution.location,
      pareto_distribution.shape, not_lt.mpr h]

theorem mean_variance_policy_witness :
    mean ⟨3, 2⟩ = .ok ((2 : ℝ) * 3 / (2 - 1)) ∧
    variance ⟨3, 2⟩ =
      .domainError "variance is undefined for shape <= 2, but got %1%." :=
  ⟨(mean_variance_policy 3 2 (by norm_num) (by norm_num)).1 (by norm_num),
   (mean_variance_policy 3 2 (by norm_num) (by norm_num)).2.2.2
     (by norm_num)⟩

theorem pdf_at_location_spec_witness :
    pdf ⟨2, 3⟩ 2 = .ok ((3 : ℝ) * (2 : ℝ) ^ (3 : ℝ) / (2 : ℝ) ^ ((3 : ℝ) + 1)) ∧
    (3 : ℝ) * (2 : ℝ) ^ (3 : ℝ) / (2 : ℝ) ^ ((3 : ℝ) + 1) = 3 / 2 ∧
    (0 : ℝ) < 3 / 2 ∧
    support ⟨2, 3⟩ = (.ok 2, .maxVal) :=
  pdf_at_location_spec 2 3 (by norm_num) (by norm_num)

/-- Claim C7 counterexample: `mode` performs no parameter validation in the
source; with the invalid location -1 it returns the computed value -1 and
never signals a domain error. -/
theorem mode_skips_validation :
    mode ⟨-1, 2⟩ = .ok (-1) ∧
    ∀ m : String, mode ⟨-1, 2⟩ ≠ .domainError m := by
  refine ⟨rfl, fun m h => ?_⟩
  exact MathResult.noConfusion h

/-- Claim C7 (amended): every moment function except `mode` — mean, median,
variance, skewness, kurtosis, kurtosis_excess — validates location and shape
first and signals a domain error for a distribution with invalid parameters;
`mode` performs no validation and returns the location unconditionally. -/
theorem moments_validate_first (location shape : ℝ)
    (h : location ≤ 0 ∨ shape ≤ 0) :
    (∃ m, mean ⟨location, shape⟩ = .domainError m) ∧
    (∃ m, median ⟨location, shape⟩ = .domainError m) ∧
    (∃ m, variance ⟨location, shape⟩ = .domainError m) ∧
    (∃ m, skewness ⟨location, shape⟩ = .domainError m) ∧
    (∃ m, kurtosis ⟨location, shape⟩ = .domainError m) ∧
    (∃ m, kurtosis_excess ⟨location, shape⟩ = .domainError m) ∧
    mode ⟨location, shape⟩ = .ok location := by
  obtain ⟨m, hm⟩ := check_pareto_fail h
  have hm' : check_pareto (pareto_distribution.location ⟨location, shape⟩)
      (pareto_distribution.shape ⟨location, shape⟩) = some m := hm
  exact ⟨⟨m, by simp [mean, hm']⟩, ⟨m, by simp [median, hm']⟩,
    ⟨m, by simp [variance, hm']⟩, ⟨m, by simp [skewness, hm']⟩,
    ⟨m, by simp [kurtosis, hm']⟩, ⟨m, by simp [kurtosis_excess, hm']⟩, rfl⟩

theorem moments_validate_first_witness :
    (∃ m, mean ⟨-1, 2⟩ = .domainError m) ∧
    (∃ m, median ⟨-1, 2⟩ = .domainError m) ∧
    (∃ m, variance ⟨-1, 2⟩ = .domainError m) ∧
    (∃ m, skewness ⟨-1, 2⟩ = .domainError m) ∧
    (∃ m, kurtosis ⟨-1, 2⟩ = .domainError m) ∧
    (∃ m, kurtosis_excess ⟨-1, 2⟩ = .domainError m) ∧
    mode ⟨-1, 2⟩ = .ok (-1) :=
  moments_validate_first (-1) 2 (Or.inl (by norm_num))

/-- Claim C8 counterexample: with both the distribution parameters and the
call argument invalid, `pdf` reports the x-argument error and `quantile`
reports the probability-argument error, not the location/shape error. -/
theorem arg_error_reported_not_param_error :
    pdf ⟨-1, 1⟩ (-2) =
      .domainError "x parameter is %1%, but must be > 0 !" ∧
    quantile ⟨-1, 1⟩ 2 =
      .domainError "Probability argument is %1%, but must be >= 0 and <= 1 !" ∧
    "x parameter is %1%, but must be > 0 !" ≠
      "Location parameter is %1%, but must be > 0!" ∧
    "Probability argument is %1%, but must be >= 0 and <= 1 !" ≠
      "Location parameter is %1%, but must be > 0!" := by
  refine ⟨?_, ?_, by decide, by decide⟩
  · simp [pdf, check_pareto_x_fail (show (-2 : ℝ) ≤ 0 by norm_num)]
  · simp [quantile,
      check_probability_fail (Or.inr (show (1 : ℝ) < 2 by norm_num))]

/-- Claim C8 (amended): in pdf, cdf, the complemented cdf, quantile and the
complemented quantile the call-specific argument (x, or p/q) is validated
first and location/shape second; hence when both the call argument and a
distribution parameter are invalid, the domain error reported is the
call-argument error. -/
theorem arg_validated_first (location shape x p : ℝ)
    (hx : x ≤ 0) (hp : p < 0 ∨ 1 < p) :
    pdf ⟨location, shape⟩ x =
      .domainError "x parameter is %1%, but must be > 0 !" ∧
    cdf ⟨location, shape⟩ x =
      .domainError "x parameter is %1%, but must be > 0 !" ∧
    cdf_complement ⟨location, shape⟩ x =
      .domainError "x parameter is %1%, but must be > 0 !" ∧
    quantile ⟨location, shape⟩ p =
      .domainError "Probability argument is %1%, but must be >= 0 and <= 1 !" ∧
    quantile_complement ⟨location, shape⟩ p =
      .domainError "Probability argument is %1%, but must be >= 0 and <= 1 !" := by
  refine ⟨?_, ?_, ?_, ?_, ?_⟩
  · simp [pdf, check_pareto_x_fail hx]
  · simp [cdf, check_pareto_x_fail hx]
  · simp [cdf_complement, check_pareto_x_fail hx]
  · simp [quantile, check_probability_fail hp]
  · simp [quantile_complement, check_probability_fail hp]

theorem arg_validated_first_witness :
    pdf ⟨-1, 1⟩ (-2) =
      .domainError "x parameter is %1%, but must be > 0 !" ∧
    cdf ⟨-1, 1⟩ (-2) =
      .domainError "x parameter is %1%, but must be > 0 !" ∧
    cdf_complement ⟨-1, 1⟩ (-2) =
      .domainError "x parameter is %1%, but must be > 0 !" ∧
    quantile ⟨-1, 1⟩ 2 =
      .domainError "Probability argument is %1%, but must be >= 0 and <= 1 !" ∧
    quantile_complement ⟨-1, 1⟩ 2 =
      .domainError "Probability argument is %1%, but must be >= 0 and <= 1 !" :=
  arg_validated_first (-1) 1 (-2) 2 (by norm_num)
    (Or.inr (by norm_num))

/-- Claim C9: at the failing input (location 1, shape 4), `kurtosis` raises
a domain error whose message reads `kurtosis_excess is undefined for shape
<= 4` — it names kurtosis_excess, not kurtosis as the claim requires. -/
theorem kurtosis_error_message_names_kurtosis_excess :
    kurtosis ⟨1, 4⟩ =
      .domainError "kurtosis_excess is undefined for shape <= 4, but got %1%." ∧
    "kurtosis_excess is undefined for shape <= 4, but got %1%." ≠
      "kurtosis is undefined for shape <= 4, but got %1%." := by
  constructor
  · have hp : check_pareto (1 : ℝ) (4 : ℝ) = none :=
      check_pareto_ok (by norm_num) (by norm_num)
    norm_num [kurtosis, pareto_distribution.location,
      pareto_distribution.shape, hp]
  · decide

end BoostMath
